import Mathlib

/-!
Verification development for the Corridor Horror locomotion module
(`src/zapysk/main.py`, Panda3D / Bullet).

The Python module is shallowly embedded over the real numbers:
  * `Vec3` mirrors Panda3D's `Vec3` (with `length`, `normalize`, scalar
    multiplication as used by the source);
  * `PlayerState` gathers the fields of `PlayerController` together with
    the Bullet character-controller observables it drives
    (`set_linear_movement`, `is_on_ground`, `do_jump`);
  * `AppState` gathers the per-frame state of `CorridorHorrorApp`
    (pause flag, pointer, door, lighting, UI) plus effect-trace fields
    (`pointerMoves`, `physicsDt`, `physicsHeading`, `jumpCount`) that record
    externally observable calls (`move_pointer`, `world.do_physics`,
    `controller.do_jump`) so that theorems can speak about them.

Bullet's capsule character controller and `BulletWorld.do_physics` are
third-party capabilities that are not part of this repository; they are
modelled from the specification (see `controllerPhysicsStep`).  Randomness
in the lighting flicker is modelled by an oracle stream carried in
`LightingState`.
-/

namespace CorridorHorror

/-- Constants from the settings block of `main.py`. -/
def CORRIDOR_LENGTH : ℝ := 30.0

def WALK_SPEED : ℝ := 4.0

def RUN_SPEED : ℝ := 7.0

/-- Mouse sensitivity, a local constant of `PlayerController.apply_mouse_look`. -/
def SENSITIVITY : ℝ := 0.1

/-- Gravity magnitude: `self.world.set_gravity(Vec3(0, 0, -9.81))`. -/
def GRAVITY : ℝ := 9.81

/-- Modelled from the spec: the vertical impulse of the Bullet controller's
`do_jump` primitive ("impulse along +Z"); the spec's end-to-end scenario C
uses a jump speed of 8.5 m/s.  The exact value is irrelevant to the claims;
only that the impulse leaves the ground. -/
def JUMP_SPEED : ℝ := 8.5

/-- Modelled from the spec: the resting height of the capsule centre above
the floor (the character spawns at z = 1.0 in `main.py`). -/
def REST_Z : ℝ := 1.0

/-- Panda3D 3-vector. -/
@[ext]
structure Vec3 where
  x : ℝ
  y : ℝ
  z : ℝ

def Vec3.zero : Vec3 := ⟨0, 0, 0⟩

noncomputable def Vec3.length (v : Vec3) : ℝ :=
  Real.sqrt (v.x ^ 2 + v.y ^ 2 + v.z ^ 2)

/-- Panda3D `Vec3.normalize` (the source only calls it after checking
`length() > 0`). -/
noncomputable def Vec3.normalize (v : Vec3) : Vec3 :=
  ⟨v.x / v.length, v.y / v.length, v.z / v.length⟩

/-- `v * r` (vector times scalar, as in `move_dir * speed`). -/
def Vec3.scale (v : Vec3) (r : ℝ) : Vec3 :=
  ⟨v.x * r, v.y * r, v.z * r⟩

def Vec3.sub (a b : Vec3) : Vec3 :=
  ⟨a.x - b.x, a.y - b.y, a.z - b.z⟩

/-- The `InputState` dataclass: raw key states, set on key-down and cleared
on key-up by the event listeners registered in `register_inputs`. -/
structure InputState where
  forward : Bool
  backward : Bool
  left : Bool
  right : Bool
  run : Bool
  interact : Bool
  jump : Bool

/-- State of `PlayerController` together with the observables of the Bullet
capsule controller it owns.  `jumpCount` is an effect trace counting the
`do_jump` invocations. -/
structure PlayerState where
  input_state : InputState
  pos : Vec3
  heading : ℝ
  pitch : ℝ
  nodeH : ℝ
  pivotP : ℝ
  pivotX : ℝ
  pivotZ : ℝ
  breath_timer : ℝ
  verticalVelocity : ℝ
  onGround : Bool
  linearMovement : Vec3
  linearLocal : Bool
  jumpCount : ℕ

/-- The movement-intent vector accumulated at the start of
`PlayerController.update` (`move_dir`), before normalization. -/
def moveDir (i : InputState) : Vec3 :=
  ⟨(if i.right then 1 else 0) + (if i.left then -1 else 0),
   (if i.forward then 1 else 0) + (if i.backward then -1 else 0),
   0⟩

/-- `move_dir` after the conditional normalization
`if move_dir.length() > 0: move_dir.normalize()`. -/
noncomputable def normalizedAxis (i : InputState) : Vec3 :=
  if 0 < (moveDir i).length then (moveDir i).normalize else moveDir i

/-- `RUN_SPEED if self.input_state.run else WALK_SPEED`. -/
def speedOf (i : InputState) : ℝ :=
  if i.run then RUN_SPEED else WALK_SPEED

/-- Modelled from the spec: `BulletCharacterControllerNode.do_jump`, the
controller's jump primitive — an impulse along +Z that leaves the ground. -/
def doJump (s : PlayerState) : PlayerState :=
  { s with verticalVelocity := JUMP_SPEED
           onGround := false
           jumpCount := s.jumpCount + 1 }

/-- `PlayerController.apply_breathing`: camera sway/bob driven by a timer. -/
noncomputable def applyBreathing (dt : ℝ) (s : PlayerState) : PlayerState :=
  let t := s.breath_timer + dt
  { s with breath_timer := t
           pivotX := Real.sin (t * 1.5) * 0.02
           pivotZ := 1.3 + Real.sin (t * 2.4) * 0.01 }

/-- `PlayerController.update`: build the intent vector, normalize it,
hand `move_dir * speed` to the controller via `set_linear_movement(·, True)`,
then invoke `do_jump` when the jump key is held and the controller reports
ground contact, then apply breathing.  The jump flag is read, never written. -/
noncomputable def PlayerController.update (dt : ℝ) (s : PlayerState) : PlayerState :=
  let velocity := (normalizedAxis s.input_state).scale (speedOf s.input_state)
  let s1 := { s with linearMovement := velocity, linearLocal := true }
  let s2 := if s1.input_state.jump then
              (if s1.onGround then doJump s1 else s1)
            else s1
  applyBreathing dt s2

/-- `PlayerController.apply_mouse_look`: yaw integrates the horizontal
delta, pitch integrates the vertical delta clamped to [-75, 75]; the node
heading and camera-pivot pitch mirror the two fields. -/
def applyMouseLook (dx dy : ℝ) (s : PlayerState) : PlayerState :=
  let heading := s.heading - dx * SENSITIVITY
  let pitch := max (-75.0) (min 75.0 (s.pitch - dy * SENSITIVITY))
  { s with heading := heading
           pitch := pitch
           nodeH := heading
           pivotP := pitch }

/-- State of the `Door` object: hinge heading, the kinematic body transform
synchronized from it by `Door.update`, the open/unlock flags, the pending
`LerpHprInterval` (its target heading), and an effect trace of the locked
sound. -/
structure DoorState where
  hingeH : ℝ
  bodyMat : ℝ
  is_open : Bool
  is_unlocked : Bool
  animActive : Bool
  animTargetH : ℝ
  lockSoundPlays : ℕ

/-- `Door.update`, via `update_collision_transform`: copy the hinge's net
transform onto the kinematic body. -/
def Door.update (d : DoorState) : DoorState :=
  { d with bodyMat := d.hingeH }

/-- `Door.open_door`: finish any running interval (snapping the hinge to its
target), mark open, start a new interval towards heading 90. -/
def Door.openDoor (d : DoorState) : DoorState :=
  let d1 := if d.animActive then { d with hingeH := d.animTargetH } else d
  { d1 with is_open := true, animActive := true, animTargetH := 90 }

/-- `Door.try_interact`: locked doors play the lock sound and report
"Locked"; an unlocked closed door opens. -/
def Door.tryInteract (d : DoorState) : DoorState × String :=
  if d.is_unlocked = false then
    ({ d with lockSoundPlays := d.lockSoundPlays + 1 }, ("Locked"))
  else if d.is_open then (d, (""))
  else (Door.openDoor d, (""))

/-- State of `LightingController`.  `random.uniform` draws are supplied by
the oracle stream `rand` (pairs: new timer value, brightness variance),
indexed by `draws`. -/
structure LightingState where
  flicker_timer : ℝ
  flickerScale : ℝ
  rand : ℕ → ℝ × ℝ
  draws : ℕ

/-- `LightingController.update`: count the flicker timer down; when it
expires, redraw it and re-scale the flickering lamp's colour. -/
noncomputable def LightingController.update (dt : ℝ) (l : LightingState) : LightingState :=
  let t := l.flicker_timer - dt
  if t ≤ 0 then
    { l with flicker_timer := (l.rand l.draws).1
             flickerScale := (l.rand l.draws).2
             draws := l.draws + 1 }
  else { l with flicker_timer := t }

/-- State of the `UI` object (prompt label, locked label, its timer). -/
structure UIState where
  promptText : String
  lockedText : String
  lock_timer : ℝ

/-- `UI.show_prompt`. -/
def UI.showPrompt (text : String) (u : UIState) : UIState :=
  { u with promptText := text }

/-- `UI.show_locked`. -/
def UI.showLocked (u : UIState) : UIState :=
  { u with lockedText := ("Locked"), lock_timer := 1.2 }

/-- `UI.update`: count the locked-label timer down and clear the label when
it expires. -/
noncomputable def UI.update (dt : ℝ) (u : UIState) : UIState :=
  if 0 < u.lock_timer then
    let t := u.lock_timer - dt
    if t ≤ 0 then { u with lock_timer := t, lockedText := ("") }
    else { u with lock_timer := t }
  else u

/-- Per-frame state of `CorridorHorrorApp`.  `pointerX`/`pointerY` model the
window's pointer position, `pointerMoves` counts `win.move_pointer` calls,
`physicsDt` and `physicsHeading` record the `dt` handed to
`world.do_physics` and the node heading the physics step consumed. -/
structure AppState where
  player : PlayerState
  door : DoorState
  lighting : LightingState
  ui : UIState
  paused : Bool
  hasPointer : Bool
  pointerX : ℝ
  pointerY : ℝ
  baseMouseX : ℝ
  baseMouseY : ℝ
  pointerMoves : ℕ
  physicsDt : ℝ
  physicsHeading : ℝ

/-- `CorridorHorrorApp.handle_mouse_look`: bail out when the window has no
pointer; compute the delta from the window centre; when it is nonzero apply
the mouse look and re-centre the pointer (`move_pointer` with the centre
truncated to int). -/
noncomputable def handleMouseLook (s : AppState) : AppState :=
  if s.hasPointer = false then s
  else
    let dx := s.pointerX - s.baseMouseX
    let dy := s.pointerY - s.baseMouseY
    if dx ≠ 0 ∨ dy ≠ 0 then
      { s with player := applyMouseLook dx dy s.player
               pointerX := ((⌊s.baseMouseX⌋ : ℤ) : ℝ)
               pointerY := ((⌊s.baseMouseY⌋ : ℤ) : ℝ)
               pointerMoves := s.pointerMoves + 1 }
    else s

/-- Rotation of a local-frame vector into world space by a heading of `h`
degrees about +Z (how the Bullet controller interprets
`set_linear_movement(velocity, is_local := True)`). -/
noncomputable def rotateH (h : ℝ) (v : Vec3) : Vec3 :=
  let r := h * Real.pi / 180
  ⟨Real.cos r * v.x - Real.sin r * v.y,
   Real.sin r * v.x + Real.cos r * v.y,
   v.z⟩

/-- Modelled from the spec: one `world.do_physics` step of the Bullet capsule
character controller (a capability external to this repository).  The
controller advances horizontally by its linear movement (rotated into world
space when local), keeps a grounded character on the floor with zero
vertical velocity, and integrates gravity while airborne, landing on the
floor when it reaches it. -/
noncomputable def controllerPhysicsStep (dt floorRestZ : ℝ) (s : PlayerState) : PlayerState :=
  let wv := if s.linearLocal then rotateH s.nodeH s.linearMovement else s.linearMovement
  let x := s.pos.x + wv.x * dt
  let y := s.pos.y + wv.y * dt
  if s.onGround then
    { s with pos := ⟨x, y, s.pos.z⟩, verticalVelocity := 0 }
  else
    let vv := s.verticalVelocity - GRAVITY * dt
    let z := s.pos.z + vv * dt
    if z ≤ floorRestZ then
      { s with pos := ⟨x, y, floorRestZ⟩, verticalVelocity := 0, onGround := true }
    else
      { s with pos := ⟨x, y, z⟩, verticalVelocity := vv }

/-- `self.world.do_physics(dt, 4, 1 / 120)` as seen by the app: steps the
character controller and records the raw `dt` it received together with the
node heading it consumed. -/
noncomputable def doPhysics (dt : ℝ) (s : AppState) : AppState :=
  { s with physicsDt := dt
           physicsHeading := s.player.nodeH
           player := controllerPhysicsStep dt REST_Z s.player }

/-- `CorridorHorrorApp.check_door_interaction`: proximity prompt and the
interact action on the door. -/
noncomputable def checkDoorInteraction (s : AppState) : AppState :=
  let doorPos : Vec3 := ⟨0, CORRIDOR_LENGTH / 2 - 0.2, 0⟩
  let distance := (Vec3.sub doorPos s.player.pos).length
  if distance < 2.3 then
    let s1 := { s with ui := UI.showPrompt ("E — interact") s.ui }
    if s1.player.input_state.interact then
      let pr := Door.tryInteract s1.door
      let s2 := { s1 with door := pr.1 }
      if pr.2 = ("Locked") then { s2 with ui := UI.showLocked s2.ui } else s2
    else s1
  else { s with ui := UI.showPrompt ("") s.ui }

/-- `CorridorHorrorApp.update`, the per-frame task: early-return while
paused; otherwise mouse look, player update, physics, door, lighting, UI,
door interaction — in that order. -/
noncomputable def CorridorHorrorApp.update (dt : ℝ) (s : AppState) : AppState :=
  if s.paused then s
  else
    let s1 := handleMouseLook s
    let s2 := { s1 with player := PlayerController.update dt s1.player }
    let s3 := doPhysics dt s2
    let s4 := { s3 with door := Door.update s3.door }
    let s5 := { s4 with lighting := LightingController.update dt s4.lighting }
    let s6 := { s5 with ui := UI.update dt s5.ui }
    checkDoorInteraction s6

/-! ### Basic vector lemmas -/

lemma Vec3.mk_self (v : Vec3) : (⟨v.x, v.y, v.z⟩ : Vec3) = v := rfl

lemma Vec3.length_nonneg (v : Vec3) : 0 ≤ v.length :=
  Real.sqrt_nonneg _

lemma Vec3.length_zero : Vec3.zero.length = 0 := by
  simp [Vec3.length, Vec3.zero]

lemma Vec3.zero_scale (r : ℝ) : Vec3.zero.scale r = Vec3.zero := by
  simp [Vec3.scale, Vec3.zero]

lemma Vec3.length_pos (v : Vec3) (h : v ≠ Vec3.zero) : 0 < v.length := by
  rw [Vec3.length]
  apply Real.sqrt_pos.mpr
  by_contra hle
  push_neg at hle
  have hx : v.x ^ 2 = 0 := by nlinarith [sq_nonneg v.x, sq_nonneg v.y, sq_nonneg v.z]
  have hy : v.y ^ 2 = 0 := by nlinarith [sq_nonneg v.x, sq_nonneg v.y, sq_nonneg v.z]
  have hz : v.z ^ 2 = 0 := by nlinarith [sq_nonneg v.x, sq_nonneg v.y, sq_nonneg v.z]
  exact h (by
    ext
    · exact pow_eq_zero_iff two_ne_zero |>.mp hx
    · exact pow_eq_zero_iff two_ne_zero |>.mp hy
    · exact pow_eq_zero_iff two_ne_zero |>.mp hz)

lemma Vec3.length_scale (v : Vec3) (r : ℝ) : (v.scale r).length = |r| * v.length := by
  rw [Vec3.scale, Vec3.length, Vec3.length]
  have h : (v.x * r) ^ 2 + (v.y * r) ^ 2 + (v.z * r) ^ 2
      = r ^ 2 * (v.x ^ 2 + v.y ^ 2 + v.z ^ 2) := by ring
  simp only
  rw [h, Real.sqrt_mul (sq_nonneg r), Real.sqrt_sq_eq_abs]

lemma Vec3.length_normalize (v : Vec3) (h : 0 < v.length) : v.normalize.length = 1 := by
  have hS : v.length ^ 2 = v.x ^ 2 + v.y ^ 2 + v.z ^ 2 := by
    rw [Vec3.length]
    exact Real.sq_sqrt (by positivity)
  have hL : v.length ≠ 0 := ne_of_gt h
  rw [Vec3.normalize, Vec3.length]
  have hq : (v.x / v.length) ^ 2 + (v.y / v.length) ^ 2 + (v.z / v.length) ^ 2 = 1 := by
    field_simp
    linarith [hS]
  simp only
  rw [hq, Real.sqrt_one]

lemma rotateH_zero (h : ℝ) : rotateH h Vec3.zero = Vec3.zero := by
  simp [rotateH, Vec3.zero]

/-! ### Projection lemmas for `PlayerController.update` -/

lemma PlayerController.update_proj (dt : ℝ) (s : PlayerState) :
    (PlayerController.update dt s).input_state = s.input_state
  ∧ (PlayerController.update dt s).heading = s.heading
  ∧ (PlayerController.update dt s).pitch = s.pitch
  ∧ (PlayerController.update dt s).nodeH = s.nodeH
  ∧ (PlayerController.update dt s).pivotP = s.pivotP
  ∧ (PlayerController.update dt s).pos = s.pos
  ∧ (PlayerController.update dt s).linearMovement
      = (normalizedAxis s.input_state).scale (speedOf s.input_state)
  ∧ (PlayerController.update dt s).linearLocal = true
  ∧ (PlayerController.update dt s).breath_timer = s.breath_timer + dt := by
  cases hj : s.input_state.jump <;> cases hg : s.onGround <;>
    simp [PlayerController.update, applyBreathing, doJump, hj, hg]

lemma PlayerController.update_jump_trace (dt : ℝ) (s : PlayerState) :
    (PlayerController.update dt s).input_state.jump = s.input_state.jump
  ∧ (PlayerController.update dt s).jumpCount
      = (if s.input_state.jump = true ∧ s.onGround = true
         then s.jumpCount + 1 else s.jumpCount)
  ∧ (PlayerController.update dt s).onGround
      = (if s.input_state.jump = true ∧ s.onGround = true
         then false else s.onGround)
  ∧ (PlayerController.update dt s).verticalVelocity
      = (if s.input_state.jump = true ∧ s.onGround = true
         then JUMP_SPEED else s.verticalVelocity) := by
  cases hj : s.input_state.jump <;> cases hg : s.onGround <;>
    simp [PlayerController.update, applyBreathing, doJump, hj, hg]

/-! ### Intent-vector lemmas -/

lemma moveDir_zero (i : InputState) (hf : i.forward = false) (hb : i.backward = false)
    (hl : i.left = false) (hr : i.right = false) : moveDir i = Vec3.zero := by
  simp [moveDir, hf, hb, hl, hr, Vec3.zero]

lemma normalizedAxis_of_zero (i : InputState) (h : moveDir i = Vec3.zero) :
    normalizedAxis i = Vec3.zero := by
  rw [normalizedAxis, h]
  simp [Vec3.length_zero]

lemma normalizedAxis_of_ne_zero (i : InputState) (h : moveDir i ≠ Vec3.zero) :
    normalizedAxis i = (moveDir i).normalize := by
  rw [normalizedAxis, if_pos (Vec3.length_pos _ h)]

lemma speedOf_pos (i : InputState) : 0 < speedOf i := by
  rw [speedOf]
  split_ifs <;> norm_num [RUN_SPEED, WALK_SPEED]

/-! ### Mouse-look helpers -/

lemma handleMouseLook_no_pointer (s : AppState) (h : s.hasPointer = false) :
    handleMouseLook s = s := by
  simp [handleMouseLook, h]

lemma handleMouseLook_zero_delta (s : AppState)
    (hx : s.pointerX = s.baseMouseX) (hy : s.pointerY = s.baseMouseY) :
    handleMouseLook s = s := by
  unfold handleMouseLook
  split
  · rfl
  · simp [hx, hy]

lemma handleMouseLook_nodeH_eq (s : AppState) (h : s.player.nodeH = s.player.heading) :
    (handleMouseLook s).player.nodeH = (handleMouseLook s).player.heading := by
  unfold handleMouseLook
  split
  · exact h
  · dsimp only
    split
    · simp [applyMouseLook]
    · exact h

/-! ### Frame-composition helpers -/

lemma checkDoorInteraction_shape (s : AppState) :
    ∃ d u, checkDoorInteraction s = { s with door := d, ui := u } := by
  unfold checkDoorInteraction
  dsimp only
  split_ifs <;> exact ⟨_, _, rfl⟩

lemma checkDoorInteraction_door_bodyMat (s : AppState) :
    (checkDoorInteraction s).door.bodyMat = s.door.bodyMat := by
  unfold checkDoorInteraction Door.tryInteract Door.openDoor
  dsimp only
  split_ifs <;> simp_all

lemma checkDoorInteraction_proj (s : AppState) :
    (checkDoorInteraction s).player = s.player
  ∧ (checkDoorInteraction s).physicsDt = s.physicsDt
  ∧ (checkDoorInteraction s).physicsHeading = s.physicsHeading
  ∧ (checkDoorInteraction s).pointerMoves = s.pointerMoves
  ∧ (checkDoorInteraction s).pointerX = s.pointerX
  ∧ (checkDoorInteraction s).pointerY = s.pointerY := by
  obtain ⟨d, u, hshape⟩ := checkDoorInteraction_shape s
  rw [hshape]
  exact ⟨rfl, rfl, rfl, rfl, rfl, rfl⟩

/-- Decomposition of an unpaused frame: the resulting player state is the
physics step applied to the player update applied to the mouse-look result;
the physics step received the raw `dt` and the post-mouse-look node heading;
the pointer fields are those left by the mouse-look phase; the door body
transform was synchronized from the hinge. -/
lemma frame_decompose (dt : ℝ) (s : AppState) (h : s.paused = false) :
    (CorridorHorrorApp.update dt s).player
        = controllerPhysicsStep dt REST_Z
            (PlayerController.update dt (handleMouseLook s).player)
  ∧ (CorridorHorrorApp.update dt s).physicsDt = dt
  ∧ (CorridorHorrorApp.update dt s).physicsHeading
        = (PlayerController.update dt (handleMouseLook s).player).nodeH
  ∧ (CorridorHorrorApp.update dt s).pointerMoves = (handleMouseLook s).pointerMoves
  ∧ (CorridorHorrorApp.update dt s).pointerX = (handleMouseLook s).pointerX
  ∧ (CorridorHorrorApp.update dt s).pointerY = (handleMouseLook s).pointerY
  ∧ (CorridorHorrorApp.update dt s).door.bodyMat = (handleMouseLook s).door.hingeH := by
  unfold CorridorHorrorApp.update
  rw [if_neg (by simp [h])]
  refine ⟨?_, ?_, ?_, ?_, ?_, ?_, ?_⟩ <;>
    simp [checkDoorInteraction_proj, checkDoorInteraction_door_bodyMat, doPhysics,
      Door.update]

/-! ### Physics-step helpers -/

lemma Vec3.zero_x : Vec3.zero.x = 0 := rfl

lemma Vec3.zero_y : Vec3.zero.y = 0 := rfl

lemma Vec3.zero_z : Vec3.zero.z = 0 := rfl

lemma controllerPhysicsStep_grounded_rest (dt fz : ℝ) (q : PlayerState)
    (hog : q.onGround = true) (hlin : q.linearMovement = Vec3.zero) :
    (controllerPhysicsStep dt fz q).pos = q.pos
  ∧ (controllerPhysicsStep dt fz q).verticalVelocity = 0
  ∧ (controllerPhysicsStep dt fz q).onGround = true
  ∧ (controllerPhysicsStep dt fz q).heading = q.heading
  ∧ (controllerPhysicsStep dt fz q).pitch = q.pitch := by
  cases hl : q.linearLocal <;>
    simp [controllerPhysicsStep, hlin, hog, hl, rotateH_zero,
      Vec3.zero_x, Vec3.zero_y, Vec3.zero_z, Vec3.mk_self]

lemma controllerPhysicsStep_orientation (dt fz : ℝ) (q : PlayerState) :
    (controllerPhysicsStep dt fz q).heading = q.heading
  ∧ (controllerPhysicsStep dt fz q).pitch = q.pitch
  ∧ (controllerPhysicsStep dt fz q).breath_timer = q.breath_timer := by
  unfold controllerPhysicsStep
  dsimp only
  split_ifs <;> exact ⟨rfl, rfl, rfl⟩

/-! ### Pitch-clamp dynamics -/

/-- The pitch map of one `apply_mouse_look` step with `dy = 100`. -/
noncomputable def pitchStep (p : ℝ) : ℝ :=
  max (-75.0) (min 75.0 (p - 100 * SENSITIVITY))

lemma pitchStep_eq (p : ℝ) : pitchStep p = max (-75) (min 75 (p - 10)) := by
  rw [pitchStep]
  norm_num [SENSITIVITY]

lemma applyMouseLook_pitch (dx dy : ℝ) (s : PlayerState) :
    (applyMouseLook dx dy s).pitch = max (-75) (min 75 (s.pitch - dy * SENSITIVITY)) := by
  show max (-75.0) (min 75.0 (s.pitch - dy * SENSITIVITY)) = _
  norm_num

lemma pitch_iterate (n : ℕ) (s : PlayerState) :
    ((applyMouseLook 0 100)^[n] s).pitch = pitchStep^[n] s.pitch := by
  induction n generalizing s with
  | zero => rfl
  | succ n ih =>
      rw [Function.iterate_succ_apply, Function.iterate_succ_apply, ih]
      rfl

lemma pitchStep_le (p : ℝ) : pitchStep p ≤ 75 := by
  rw [pitchStep_eq]
  exact max_le (by norm_num) (min_le_left _ _)

lemma pitchStep_fix : pitchStep (-75) = -75 := by
  rw [pitchStep_eq, show (-75 : ℝ) - 10 = -85 by norm_num,
    min_eq_right (by norm_num), max_eq_left (by norm_num)]

lemma pitchStep_reach : ∀ (k : ℕ) (p : ℝ), p ≤ -65 + 10 * k → pitchStep^[k + 1] p = -75 := by
  intro k
  induction k with
  | zero =>
      intro p hp
      norm_num at hp
      rw [Function.iterate_one, pitchStep_eq,
        min_eq_right (by linarith), max_eq_left (by linarith)]
  | succ k ih =>
      intro p hp
      have hk : (0 : ℝ) ≤ (k : ℝ) := Nat.cast_nonneg k
      have hstep : pitchStep p ≤ -65 + 10 * k := by
        rw [pitchStep_eq]
        refine max_le (by linarith) ?_
        calc min 75 (p - 10) ≤ p - 10 := min_le_right _ _
          _ ≤ -65 + 10 * k := by push_cast at hp ⊢; linarith
      have h2 := ih (pitchStep p) hstep
      rw [Function.iterate_succ_apply]
      exact h2

lemma pitchStep_iter_fix : ∀ m : ℕ, pitchStep^[m] (-75) = -75 := by
  intro m
  induction m with
  | zero => rfl
  | succ m ih => rw [Function.iterate_succ_apply, pitchStep_fix, ih]

lemma pitchStep_converge (n : ℕ) (p : ℝ) (h : 16 ≤ n) : pitchStep^[n] p = -75 := by
  obtain ⟨m, rfl⟩ : ∃ m, n = m + 16 := ⟨n - 16, by omega⟩
  rw [Function.iterate_add_apply]
  have h16 : pitchStep^[16] p = -75 := by
    have h1 : pitchStep p ≤ -65 + 10 * (14 : ℕ) := by
      have := pitchStep_le p
      push_cast
      linarith
    have h2 := pitchStep_reach 14 (pitchStep p) h1
    rw [show (16 : ℕ) = 15 + 1 from rfl, Function.iterate_succ_apply]
    exact h2
  rw [h16]
  exact pitchStep_iter_fix m

/-! ### Concrete states used by witnesses and counterexamples -/

/-- All keys released. -/
def inputRest : InputState :=
  ⟨false, false, false, false, false, false, false⟩

/-- A grounded, at-rest player at the spawn position. -/
noncomputable def playerRest : PlayerState :=
  { input_state := inputRest
    pos := ⟨0, -13, 1⟩
    heading := 0
    pitch := 0
    nodeH := 0
    pivotP := 0
    pivotX := 0
    pivotZ := 1.3
    breath_timer := 0
    verticalVelocity := 0
    onGround := true
    linearMovement := Vec3.zero
    linearLocal := true
    jumpCount := 0 }

noncomputable def doorInit : DoorState :=
  { hingeH := 180
    bodyMat := 180
    is_open := false
    is_unlocked := false
    animActive := false
    animTargetH := 180
    lockSoundPlays := 0 }

noncomputable def lightingInit : LightingState :=
  { flicker_timer := 1
    flickerScale := 1
    rand := fun _ => (1, 1)
    draws := 0 }

noncomputable def uiInit : UIState :=
  { promptText := ("")
    lockedText := ("")
    lock_timer := 0 }

/-- An unpaused app at rest: pointer centred, player grounded, no input. -/
noncomputable def appRest : AppState :=
  { player := playerRest
    door := doorInit
    lighting := lightingInit
    ui := uiInit
    paused := false
    hasPointer := true
    pointerX := 320
    pointerY := 240
    baseMouseX := 320
    baseMouseY := 240
    pointerMoves := 0
    physicsDt := 0
    physicsHeading := 0 }

/-- A paused app whose pointer sits away from the window centre. -/
noncomputable def appPausedOff : AppState :=
  { appRest with paused := true, pointerX := 100 }

/-- A grounded player holding the space bar (`jump` key state true). -/
noncomputable def playerJumpHeld : PlayerState :=
  { playerRest with input_state := { inputRest with jump := true } }

/-- A player holding the forward key. -/
noncomputable def playerForward : PlayerState :=
  { playerRest with input_state := { inputRest with forward := true } }

/-- An unpaused app whose window reports no pointer. -/
noncomputable def appNoPointer : AppState :=
  { appRest with hasPointer := false, pointerX := 5 }

/-! ### Claim theorems -/

/-- C1, counterexample: the claim says `PlayerController.update` clears the
jump-request flag unconditionally after the consumption attempt, so after a
step from a state with the jump key held the flag should read `false`.  It
does not: the engine never writes the flag (only the `space-up` event
listener clears it), so after one update of a grounded player holding space
the flag is still set. -/
theorem c1_counterexample :
    ¬ ((PlayerController.update (1 / 60) playerJumpHeld).input_state.jump = false) := by
  have h := (PlayerController.update_jump_trace (1 / 60) playerJumpHeld).1
  rw [h]
  simp [playerJumpHeld, inputRest]

/-- C1, amended: `PlayerController.update` never clears `input_state.jump`;
the flag mirrors the raw key state (cleared only by the key-up listener).
Within one step, `do_jump` is invoked exactly once when the flag is set and
the controller reports ground contact, and not otherwise — so a held key
re-triggers the jump on any later grounded step without a new press. -/
theorem c1_jump_flag_behavior (dt : ℝ) (s : PlayerState) :
    (PlayerController.update dt s).input_state.jump = s.input_state.jump
  ∧ (PlayerController.update dt s).jumpCount
      = (if s.input_state.jump = true ∧ s.onGround = true
         then s.jumpCount + 1 else s.jumpCount) :=
  ⟨(PlayerController.update_jump_trace dt s).1,
   (PlayerController.update_jump_trace dt s).2.1⟩

/-- C2, counterexample: the claim says the frame clamps delta-time to a
fixed maximum (e.g. 50 ms) before it is used for integration.  With a
simulated 2-second stall the frame hands the physics step the raw value 2,
which exceeds every such clamp. -/
theorem c2_counterexample :
    (CorridorHorrorApp.update 2 appRest).physicsDt = 2
  ∧ ¬ ((CorridorHorrorApp.update 2 appRest).physicsDt ≤ 0.05) := by
  have h := (frame_decompose 2 appRest rfl).2.1
  exact ⟨h, by rw [h]; norm_num⟩

/-- C2, amended: `CorridorHorrorApp.update` performs no delta-time clamping;
the raw per-frame `dt` read from the clock is passed unmodified to the
player update and to `world.do_physics` (whose substep arguments `4, 1/120`
are the only bound on simulated time). -/
theorem c2_dt_unclamped (dt : ℝ) (s : AppState) (h : s.paused = false) :
    (CorridorHorrorApp.update dt s).physicsDt = dt :=
  (frame_decompose dt s h).2.1

theorem c2_dt_unclamped_witness :
    appRest.paused = false ∧ (CorridorHorrorApp.update 2 appRest).physicsDt = 2 :=
  ⟨rfl, c2_dt_unclamped 2 appRest rfl⟩

/-- C3: the pitch produced by `apply_mouse_look` always lies in the clamp
interval [-75, 75] (the configured `pitchClamp` is 75 degrees), and 1000
consecutive steps of `dy = +100` drive the pitch to exactly the lower clamp
bound `-75`, where it stays for all further steps. -/
theorem c3_pitch_clamp (s : PlayerState) (dx dy : ℝ) :
    (-75 ≤ (applyMouseLook dx dy s).pitch ∧ (applyMouseLook dx dy s).pitch ≤ 75)
  ∧ ((applyMouseLook 0 100)^[1000] s).pitch = -75
  ∧ ∀ n : ℕ, 1000 ≤ n → ((applyMouseLook 0 100)^[n] s).pitch = -75 := by
  refine ⟨⟨?_, ?_⟩, ?_, ?_⟩
  · rw [applyMouseLook_pitch]
    exact le_max_left _ _
  · rw [applyMouseLook_pitch]
    exact max_le (by norm_num) (min_le_left _ _)
  · rw [pitch_iterate]
    exact pitchStep_converge 1000 s.pitch (by norm_num)
  · intro n hn
    rw [pitch_iterate]
    exact pitchStep_converge n s.pitch (by omega)

theorem c3_pitch_clamp_witness :
    ((applyMouseLook 0 100)^[1500] playerRest).pitch = -75 :=
  (c3_pitch_clamp playerRest 0 0).2.2 1500 (by norm_num)

/-- C4, counterexample: the claim says the pointer device is re-centred
every frame even while paused.  In a paused frame with the pointer away
from the centre, the frame is the identity — in particular `move_pointer`
is never called and the pointer stays off-centre. -/
theorem c4_counterexample :
    CorridorHorrorApp.update (1 / 60) appPausedOff = appPausedOff
  ∧ appPausedOff.pointerX ≠ appPausedOff.baseMouseX := by
  constructor
  · unfold CorridorHorrorApp.update
    rw [if_pos (show appPausedOff.paused = true from rfl)]
  · show (100 : ℝ) ≠ 320
    norm_num

/-- C4, amended: while the pause flag is set the frame task early-returns
before doing anything: no part of the state changes — and in particular the
pointer is NOT re-centred while paused (`handle_mouse_look` is skipped
together with everything else). -/
theorem c4_pause_freezes (dt : ℝ) (s : AppState) (h : s.paused = true) :
    CorridorHorrorApp.update dt s = s := by
  unfold CorridorHorrorApp.update
  rw [if_pos h]

theorem c4_pause_freezes_witness :
    appPausedOff.paused = true
  ∧ CorridorHorrorApp.update 1 appPausedOff = appPausedOff :=
  ⟨rfl, c4_pause_freezes 1 appPausedOff rfl⟩

/-- C5: `apply_mouse_look` computes `yaw' = yaw - dx * sensitivity` and
`pitch' = clamp(pitch - dy * sensitivity, -75, 75)`, writes them to the
node heading and camera-pivot pitch (the scene-graph image of the same two
orientation fields), and mutates nothing else. -/
theorem c5_mouse_look_contract (dx dy : ℝ) (s : PlayerState) :
    (applyMouseLook dx dy s).heading = s.heading - dx * SENSITIVITY
  ∧ (applyMouseLook dx dy s).pitch
      = max (-75) (min 75 (s.pitch - dy * SENSITIVITY))
  ∧ (applyMouseLook dx dy s).nodeH = (applyMouseLook dx dy s).heading
  ∧ (applyMouseLook dx dy s).pivotP = (applyMouseLook dx dy s).pitch
  ∧ (applyMouseLook dx dy s).input_state = s.input_state
  ∧ (applyMouseLook dx dy s).pos = s.pos
  ∧ (applyMouseLook dx dy s).pivotX = s.pivotX
  ∧ (applyMouseLook dx dy s).pivotZ = s.pivotZ
  ∧ (applyMouseLook dx dy s).breath_timer = s.breath_timer
  ∧ (applyMouseLook dx dy s).verticalVelocity = s.verticalVelocity
  ∧ (applyMouseLook dx dy s).onGround = s.onGround
  ∧ (applyMouseLook dx dy s).linearMovement = s.linearMovement
  ∧ (applyMouseLook dx dy s).linearLocal = s.linearLocal
  ∧ (applyMouseLook dx dy s).jumpCount = s.jumpCount := by
  refine ⟨rfl, ?_, rfl, rfl, rfl, rfl, rfl, rfl, rfl, rfl, rfl, rfl, rfl, rfl⟩
  rw [applyMouseLook_pitch]

/-- C6: the velocity handed to the capsule controller by
`set_linear_movement` equals the normalized intent axis scaled by the
selected speed; the normalized axis has magnitude at most 1; zero intent
yields the zero velocity and nonzero intent yields a velocity whose
magnitude is exactly the selected speed. -/
theorem c6_velocity_contract (dt : ℝ) (s : PlayerState) :
    (PlayerController.update dt s).linearMovement
        = (normalizedAxis s.input_state).scale (speedOf s.input_state)
  ∧ (normalizedAxis s.input_state).length ≤ 1
  ∧ (moveDir s.input_state = Vec3.zero →
      (PlayerController.update dt s).linearMovement = Vec3.zero)
  ∧ (moveDir s.input_state ≠ Vec3.zero →
      ((PlayerController.update dt s).linearMovement).length = speedOf s.input_state) := by
  have hlin := (PlayerController.update_proj dt s).2.2.2.2.2.2.1
  refine ⟨hlin, ?_, ?_, ?_⟩
  · rw [normalizedAxis]
    split_ifs with h
    · exact le_of_eq (Vec3.length_normalize _ h)
    · push_neg at h
      have h0 := Vec3.length_nonneg (moveDir s.input_state)
      linarith
  · intro h0
    rw [hlin, normalizedAxis_of_zero _ h0, Vec3.zero_scale]
  · intro hne
    rw [hlin, Vec3.length_scale, normalizedAxis_of_ne_zero _ hne,
      Vec3.length_normalize _ (Vec3.length_pos _ hne), mul_one,
      abs_of_pos (speedOf_pos _)]

theorem c6_velocity_contract_witness :
    ((PlayerController.update 1 playerForward).linearMovement).length = WALK_SPEED := by
  have hne : moveDir playerForward.input_state ≠ Vec3.zero := by
    simp [moveDir, playerForward, inputRest, Vec3.zero]
  have h := (c6_velocity_contract 1 playerForward).2.2.2 hne
  simpa [speedOf, playerForward, inputRest] using h

/-- C7: on an unpaused frame the mouse-look phase runs before the
locomotion/physics phase: the heading the physics step consumed for
camera-relative movement is exactly the heading produced by this frame's
`handle_mouse_look` (given the program invariant that the node heading
mirrors the `heading` field), and the locomotion phase leaves the heading
untouched. -/
theorem c7_orientation_before_translation (dt : ℝ) (s : AppState)
    (hp : s.paused = false) (hinv : s.player.nodeH = s.player.heading) :
    (CorridorHorrorApp.update dt s).physicsHeading = (handleMouseLook s).player.heading
  ∧ (CorridorHorrorApp.update dt s).player.heading = (handleMouseLook s).player.heading := by
  obtain ⟨hpl, _, hph, _, _, _, _⟩ := frame_decompose dt s hp
  constructor
  · rw [hph, (PlayerController.update_proj dt _).2.2.2.1]
    exact handleMouseLook_nodeH_eq s hinv
  · rw [hpl, (controllerPhysicsStep_orientation dt REST_Z _).1,
      (PlayerController.update_proj dt _).2.1]

theorem c7_orientation_before_translation_witness :
    appRest.paused = false
  ∧ (CorridorHorrorApp.update 1 appRest).physicsHeading
      = (handleMouseLook appRest).player.heading :=
  ⟨rfl, (c7_orientation_before_translation 1 appRest rfl rfl).1⟩

/-- C8: when the pointer delta is exactly zero in both components,
`handle_mouse_look` is a complete no-op: the state is returned unchanged
(no orientation write, no `move_pointer` call), rather than a
zero-magnitude update being applied. -/
theorem c8_zero_delta_noop (s : AppState)
    (hx : s.pointerX - s.baseMouseX = 0) (hy : s.pointerY - s.baseMouseY = 0) :
    handleMouseLook s = s :=
  handleMouseLook_zero_delta s (sub_eq_zero.mp hx) (sub_eq_zero.mp hy)

theorem c8_zero_delta_noop_witness :
    appRest.pointerX - appRest.baseMouseX = 0
  ∧ handleMouseLook appRest = appRest := by
  have hx : appRest.pointerX - appRest.baseMouseX = 0 := by
    show (320 : ℝ) - 320 = 0
    norm_num
  have hy : appRest.pointerY - appRest.baseMouseY = 0 := by
    show (240 : ℝ) - 240 = 0
    norm_num
  exact ⟨hx, c8_zero_delta_noop appRest hx hy⟩

/-- C9: a grounded character at rest (zero vertical velocity, no movement
intent, no jump request, zero mouse delta) passes through one unpaused
frame with its `CharacterState` — position, vertical velocity, grounded
flag, yaw and pitch — exactly unchanged. -/
theorem c9_rest_idempotent (dt : ℝ) (s : AppState)
    (hp : s.paused = false)
    (hg : s.player.onGround = true)
    (hv : s.player.verticalVelocity = 0)
    (hf : s.player.input_state.forward = false)
    (hb : s.player.input_state.backward = false)
    (hl : s.player.input_state.left = false)
    (hr : s.player.input_state.right = false)
    (hj : s.player.input_state.jump = false)
    (hx : s.pointerX = s.baseMouseX) (hy : s.pointerY = s.baseMouseY) :
    (CorridorHorrorApp.update dt s).player.pos = s.player.pos
  ∧ (CorridorHorrorApp.update dt s).player.verticalVelocity = s.player.verticalVelocity
  ∧ (CorridorHorrorApp.update dt s).player.onGround = s.player.onGround
  ∧ (CorridorHorrorApp.update dt s).player.heading = s.player.heading
  ∧ (CorridorHorrorApp.update dt s).player.pitch = s.player.pitch := by
  have hml := handleMouseLook_zero_delta s hx hy
  have hframe := (frame_decompose dt s hp).1
  rw [hml] at hframe
  have hproj := PlayerController.update_proj dt s.player
  have htr := PlayerController.update_jump_trace dt s.player
  have hqog : (PlayerController.update dt s.player).onGround = true := by
    rw [htr.2.2.1]
    simp [hj, hg]
  have hqlin : (PlayerController.update dt s.player).linearMovement = Vec3.zero := by
    rw [hproj.2.2.2.2.2.2.1, normalizedAxis_of_zero _ (moveDir_zero _ hf hb hl hr),
      Vec3.zero_scale]
  have hphys := controllerPhysicsStep_grounded_rest dt REST_Z _ hqog hqlin
  rw [hframe]
  exact ⟨by rw [hphys.1, hproj.2.2.2.2.2.1],
         by rw [hphys.2.1, hv],
         by rw [hphys.2.2.1, hg],
         by rw [hphys.2.2.2.1, hproj.2.1],
         by rw [hphys.2.2.2.2, hproj.2.2.1]⟩

theorem c9_rest_idempotent_witness :
    (CorridorHorrorApp.update (1 / 60) appRest).player.pos = appRest.player.pos
  ∧ (CorridorHorrorApp.update (1 / 60) appRest).player.verticalVelocity
      = appRest.player.verticalVelocity
  ∧ (CorridorHorrorApp.update (1 / 60) appRest).player.onGround = appRest.player.onGround
  ∧ (CorridorHorrorApp.update (1 / 60) appRest).player.heading = appRest.player.heading
  ∧ (CorridorHorrorApp.update (1 / 60) appRest).player.pitch = appRest.player.pitch :=
  c9_rest_idempotent (1 / 60) appRest rfl rfl rfl rfl rfl rfl rfl rfl rfl rfl

/-- C10: on an unpaused frame in which the window reports no pointer, the
frame leaves yaw and pitch unchanged and never calls `move_pointer`
(the pointer position and move counter are untouched), while the rest of
the frame still runs: the physics step receives `dt`, the breathing timer
advances, and the door body transform is synchronized from the hinge. -/
theorem c10_no_pointer_frame (dt : ℝ) (s : AppState)
    (hp : s.paused = false) (hnp : s.hasPointer = false) :
    (CorridorHorrorApp.update dt s).player.heading = s.player.heading
  ∧ (CorridorHorrorApp.update dt s).player.pitch = s.player.pitch
  ∧ (CorridorHorrorApp.update dt s).pointerMoves = s.pointerMoves
  ∧ (CorridorHorrorApp.update dt s).pointerX = s.pointerX
  ∧ (CorridorHorrorApp.update dt s).physicsDt = dt
  ∧ (CorridorHorrorApp.update dt s).player.breath_timer = s.player.breath_timer + dt
  ∧ (CorridorHorrorApp.update dt s).door.bodyMat = s.door.hingeH := by
  have hml := handleMouseLook_no_pointer s hnp
  obtain ⟨hpl, hdt, hph, hpm, hpx, hpy, hbm⟩ := frame_decompose dt s hp
  rw [hml] at hpl hpm hpx hbm
  have hproj := PlayerController.update_proj dt s.player
  have horient := controllerPhysicsStep_orientation dt REST_Z (PlayerController.update dt s.player)
  refine ⟨?_, ?_, hpm, hpx, hdt, ?_, hbm⟩
  · rw [hpl, horient.1, hproj.2.1]
  · rw [hpl, horient.2.1, hproj.2.2.1]
  · rw [hpl, horient.2.2, hproj.2.2.2.2.2.2.2.2]

theorem c10_no_pointer_frame_witness :
    (CorridorHorrorApp.update 1 appNoPointer).player.heading
      = appNoPointer.player.heading
  ∧ (CorridorHorrorApp.update 1 appNoPointer).player.pitch = appNoPointer.player.pitch
  ∧ (CorridorHorrorApp.update 1 appNoPointer).pointerMoves = appNoPointer.pointerMoves
  ∧ (CorridorHorrorApp.update 1 appNoPointer).pointerX = appNoPointer.pointerX
  ∧ (CorridorHorrorApp.update 1 appNoPointer).physicsDt = 1
  ∧ (CorridorHorrorApp.update 1 appNoPointer).player.breath_timer
      = appNoPointer.player.breath_timer + 1
  ∧ (CorridorHorrorApp.update 1 appNoPointer).door.bodyMat = appNoPointer.door.hingeH :=
  c10_no_pointer_frame 1 appNoPointer rfl rfl

end CorridorHorror
